import Mathlib

/-!
Shallow embedding of the `senmu-a/web-moniter` capture-to-delivery pipeline:
the buffering/flush controller (`Tracker`, from `src/packages/core`), the
multi-transport delivery unit (`Reporter`, from `src/packages/reporter/src/index.ts`),
the SDK facade (`WebMoniter`, from `src/packages/web-moniter/src/index.ts`) and the
fetch request classifier (`FetchHandler.fetchProxy`, from the network plugin).

JavaScript truthiness (`x || d`) on numbers and strings is modelled explicitly:
`0`, `""` and `undefined` are falsy.
-/

/-- JS `v || d` for an optional number: `0` and `undefined` are falsy. -/
def jsOrNat (v : Option Nat) (d : Nat) : Nat :=
  match v with
  | some n => if n = 0 then d else n
  | none => d

/-- JS `v || d` for an optional string: `""` and `undefined` are falsy. -/
def jsOrStr (v : Option String) (d : String) : String :=
  match v with
  | some s => if s = "" then d else s
  | none => d

/-- JS truthiness of an optional string (`""` and `undefined` are falsy). -/
def jsTruthy (v : Option String) : Bool :=
  match v with
  | some s => s != ""
  | none => false

/-- A metric record (`MetricData` in `@senmu/types`): the claim-relevant common
fields, each optional exactly as a plain JS object field may be absent. -/
structure MetricData where
  name : String := ""
  sessionId : Option String := none
  timestamp : Option Nat := none
  pageUrl : Option String := none
  project : Option String := none
  appVersion : Option String := none
deriving Repr, DecidableEq

/-- Model of `MoniterConfig` after the constructor merge `{ ...DEFAULT_CONFIG, ...config }`;
field defaults mirror `DEFAULT_CONFIG` of `src/packages/core` /
`DEFAULT_REPORTER_CONFIG` of `src/packages/reporter`. -/
structure MoniterConfig where
  project : String := ""
  appVersion : Option String := none
  reportUrl : Option String := none
  sampleRate : Rat := 1
  debug : Bool := false
  maxCache : Nat := 50
  reportImmediately : Bool := false
  headers : List (String × String) := []
deriving Repr, DecidableEq

/-- A `Partial<MoniterConfig>` update: a field that is `none` is absent from the
update object and keeps the current value under the JS spread
`{ ...config, ...update }`. -/
structure ConfigPatch where
  project : Option String := none
  appVersion : Option String := none
  reportUrl : Option String := none
  sampleRate : Option Rat := none
  debug : Option Bool := none
  maxCache : Option Nat := none
  reportImmediately : Option Bool := none
  headers : Option (List (String × String)) := none
deriving Repr, DecidableEq

/-- Merge a field of an optional type: a present update value replaces the
current optional value. -/
def patchOpt (pv cv : Option α) : Option α :=
  match pv with
  | some v => some v
  | none => cv

/-- JS object spread `{ ...c, ...p }` of a partial update into a full config. -/
def mergeConfig (c : MoniterConfig) (p : ConfigPatch) : MoniterConfig :=
  { project := p.project.getD c.project
    appVersion := patchOpt p.appVersion c.appVersion
    reportUrl := patchOpt p.reportUrl c.reportUrl
    sampleRate := p.sampleRate.getD c.sampleRate
    debug := p.debug.getD c.debug
    maxCache := p.maxCache.getD c.maxCache
    reportImmediately := p.reportImmediately.getD c.reportImmediately
    headers := p.headers.getD c.headers }

/-- Effective buffer capacity, `this.config.maxCache || 50`. -/
def effMaxCache (c : MoniterConfig) : Nat :=
  if c.maxCache = 0 then 50 else c.maxCache

/-- Model of `Tracker.shouldSample`: `Math.random() < (this.config.sampleRate || 1.0)`.
`rand` is the value drawn from `Math.random()`, in `[0, 1)`. A `sampleRate`
of `0` is falsy in JS, so `0 || 1.0` evaluates to `1.0`. -/
def shouldSample (sampleRate : Rat) (rand : Rat) : Bool :=
  decide (rand < (if sampleRate = 0 then 1 else sampleRate))

/-- Enrichment performed by `Tracker.send`. `Tracker.generateSessionId` is time-and-randomness derived; the session id
is an opaque string fixed at construction, so the model carries it as a field. -/
def enrichMetric (sessionId : String) (cfg : MoniterConfig) (now : Nat)
    (locationHref : String) (m : MetricData) : MetricData :=
  { m with
    sessionId := some sessionId
    timestamp := some (jsOrNat m.timestamp now)
    pageUrl := some (jsOrStr m.pageUrl locationHref)
    project := some cfg.project
    appVersion := cfg.appVersion }

/-- The three transports of the `Reporter`, in the code's naming:
`sendBeacon` (navigator.sendBeacon), `sendImmediate` (blocking fetch POST),
`sendImage` (1x1 gif query-string fallback). -/
inductive Transport where
  | beacon
  | xhrFetch
  | image
deriving Repr, DecidableEq

/-- Outcome of the blocking `fetch` POST inside `Reporter.sendImmediate`. -/
inductive FetchOutcome where
  | ok2xx
  | nonOk
  | netThrow
deriving Repr, DecidableEq

/-- Host-environment facts a delivery run depends on: whether
`navigator.sendBeacon` exists, what it returns, and how `fetch` settles. -/
structure DeliveryEnv where
  beaconAvailable : Bool := true
  beaconOk : Bool := true
  fetchOutcome : FetchOutcome := .ok2xx
deriving Repr, DecidableEq

/-- Mutable state of a `Reporter` instance. -/
structure ReporterState where
  config : MoniterConfig
  isSending : Bool := false
  destroyed : Bool := false
deriving Repr, DecidableEq

/-- Result of one `Reporter.send` call: the updated reporter state, the ordered
list of transports actually attempted, and whether the returned promise
rejects (`true`) or resolves (`false`). -/
structure ReportOutcome where
  reporter : ReporterState
  attempts : List Transport
  rejected : Bool
deriving Repr, DecidableEq

/-- Model of `Reporter.sendImage`: fire-and-forget image GET; its promise resolves. -/
def sendImageR (r : ReporterState) : ReportOutcome :=
  ⟨r, [.image], false⟩

/-- Model of `Reporter.sendImmediate`: guarded by the `isSending` flag; sets it, runs the
blocking fetch, and clears it in the `finally` on every path. A non-2xx
response throws, and any throw is re-thrown (the promise rejects). -/
def sendImmediateR (r : ReporterState) (env : DeliveryEnv) : ReportOutcome :=
  if r.isSending then ⟨r, [], false⟩
  else
    let rBusy : ReporterState := { r with isSending := true }
    match env.fetchOutcome with
    | .ok2xx => ⟨{ rBusy with isSending := false }, [.xhrFetch], false⟩
    | .nonOk => ⟨{ rBusy with isSending := false }, [.xhrFetch], true⟩
    | .netThrow => ⟨{ rBusy with isSending := false }, [.xhrFetch], true⟩

/-- Model of `Reporter.sendBeacon`: if `navigator.sendBeacon` is not a function, fall
back to `sendImage`; if it returns `false`, fall back to `sendImage`. -/
def sendBeaconR (r : ReporterState) (env : DeliveryEnv) : ReportOutcome :=
  if env.beaconAvailable = false then sendImageR r
  else if env.beaconOk then ⟨r, [.beacon], false⟩
  else
    let out := sendImageR r
    ⟨out.reporter, .beacon :: out.attempts, out.rejected⟩

/-- Model of `Reporter.send(data, immediately)`: fail fast when destroyed or when no
(truthy) `reportUrl` is configured or the batch is empty; otherwise pick the
immediate blocking path or the beacon chain. -/
def reporterSend (r : ReporterState) (batch : List MetricData)
    (immediately : Bool) (env : DeliveryEnv) : ReportOutcome :=
  if r.destroyed then ⟨r, [], false⟩
  else if jsTruthy r.config.reportUrl = false then ⟨r, [], false⟩
  else if batch = [] then ⟨r, [], false⟩
  else if immediately || r.config.reportImmediately then sendImmediateR r env
  else sendBeaconR r env

/-- Model of `Reporter.setConfig`: `this.config = { ...this.config, ...config }`. -/
def reporterSetConfig (r : ReporterState) (p : ConfigPatch) : ReporterState :=
  { r with config := mergeConfig r.config p }

/-- Mutable state of a `Tracker` instance. `plugins` keeps the registered
plugin names (the keys of the code's `Map<string, Plugin>`); `reporter` is
the attached delivery unit, if any. -/
structure Tracker where
  config : MoniterConfig
  plugins : List String := []
  reporter : Option ReporterState := none
  metricCache : List MetricData := []
  sessionId : String := ""
deriving Repr, DecidableEq

/-- Result of a `Tracker.send` / `Tracker.flush` step: the updated tracker,
the batch handed to `Reporter.send` (empty when no flush delivered), the
transports attempted, and whether the delivery promise rejects. -/
structure FlushOutcome where
  tracker : Tracker
  handed : List MetricData
  attempts : List Transport
  rejected : Bool
deriving Repr, DecidableEq

/-- Model of `Tracker.flush`: no-op when the cache is empty or no reporter is attached;
otherwise swap the cache for `[]` and call `reporter.send(batch, true)`.
The failure handler attached with `.catch` runs later; it is modelled
separately as `trackerOnSendFail`. -/
def trackerFlush (t : Tracker) (env : DeliveryEnv) : FlushOutcome :=
  if t.metricCache = [] then ⟨t, [], [], false⟩
  else
    match t.reporter with
    | none => ⟨t, [], [], false⟩
    | some r =>
      let batch := t.metricCache
      let t1 : Tracker := { t with metricCache := [] }
      let out := reporterSend r batch true env
      ⟨{ t1 with reporter := some out.reporter }, batch, out.attempts, out.rejected⟩

/-- The `.catch` handler installed by `Tracker.flush`:
`this.metricCache = [...metricsToSend, ...this.metricCache].slice(0, this.config.maxCache || 50)`. -/
def trackerOnSendFail (t : Tracker) (failedBatch : List MetricData) : Tracker :=
  { t with metricCache := (failedBatch ++ t.metricCache).take (effMaxCache t.config) }

/-- Model of `Tracker.send(metric, reportNow)`: sample per call, enrich, append to the
cache, and flush when `reportNow` or the cache reached `maxCache || 50`. -/
def trackerSend (t : Tracker) (ms : List MetricData) (reportNow : Bool)
    (rand : Rat) (now : Nat) (locationHref : String) (env : DeliveryEnv) : FlushOutcome :=
  if shouldSample t.config.sampleRate rand = false then ⟨t, [], [], false⟩
  else
    let enriched := ms.map (enrichMetric t.sessionId t.config now locationHref)
    let t1 : Tracker := { t with metricCache := t.metricCache ++ enriched }
    if reportNow || decide (effMaxCache t.config ≤ t1.metricCache.length) then
      trackerFlush t1 env
    else ⟨t1, [], [], false⟩

/-- Sequential single-metric `Tracker.send` calls (non-immediate), as issued by
capture adapters between a flush and its asynchronous failure handler. -/
def trackerSendAll (t : Tracker) (ms : List MetricData) (rand : Rat) (now : Nat)
    (locationHref : String) (env : DeliveryEnv) : Tracker :=
  ms.foldl (fun acc m => (trackerSend acc [m] false rand now locationHref env).tracker) t

/-- Model of `Tracker.setReporter`: attach the reporter; when the tracker's config has a
(truthy) `reportUrl`, forward exactly that key. -/
def trackerSetReporter (t : Tracker) (r : ReporterState) : Tracker :=
  if jsTruthy t.config.reportUrl then
    { t with reporter := some (reporterSetConfig r { reportUrl := t.config.reportUrl }) }
  else
    { t with reporter := some r }

/-- Model of `Tracker.setConfig`: merge the update into the tracker's config; when a
reporter is attached and the update carries a truthy `reportUrl`, forward a
patch containing only that `reportUrl`. -/
def trackerSetConfig (t : Tracker) (p : ConfigPatch) : Tracker :=
  let t1 : Tracker := { t with config := mergeConfig t.config p }
  match t1.reporter with
  | some r =>
    if jsTruthy p.reportUrl then
      { t1 with reporter := some (reporterSetConfig r { reportUrl := p.reportUrl }) }
    else t1
  | none => t1

/-- Model of `Tracker.destroy`: tear down every registered plugin (their names are
returned as the list of teardown invocations), clear the registry, perform a
final `flush`, and destroy the reporter. -/
def trackerDestroy (t : Tracker) (env : DeliveryEnv) : Tracker × List String :=
  let torn := t.plugins
  let t1 : Tracker := { t with plugins := [] }
  let fl := trackerFlush t1 env
  let t2 := fl.tracker
  let t3 : Tracker :=
    { t2 with reporter := t2.reporter.map (fun r => { r with destroyed := true }) }
  (t3, torn)

/-- The `WebMoniter` facade singleton state. -/
structure WebMoniter where
  initialized : Bool := false
  tracker : Option Tracker := none
deriving Repr, DecidableEq

/-- Model of `WebMoniter.destroy`: no-op unless initialized; otherwise destroy the
tracker and clear the `initialized` flag. -/
def wmDestroy (w : WebMoniter) (env : DeliveryEnv) : WebMoniter :=
  if w.initialized = false then w
  else { initialized := false, tracker := w.tracker.map (fun t => (trackerDestroy t env).1) }

/-- Model of `WebMoniter.send`: logs an error and returns when not initialized;
otherwise delegates to `Tracker.send`. The second component is the batch that
reached the delivery unit. -/
def wmSend (w : WebMoniter) (ms : List MetricData) (reportNow : Bool) (rand : Rat)
    (now : Nat) (locationHref : String) (env : DeliveryEnv) : WebMoniter × List MetricData :=
  if w.initialized = false then (w, [])
  else
    match w.tracker with
    | none => (w, [])
    | some t =>
      let out := trackerSend t ms reportNow rand now locationHref env
      ({ w with tracker := some out.tracker }, out.handed)

/-- Model of `WebMoniter.flush`: logs an error and returns when not initialized;
otherwise delegates to `Tracker.flush`. -/
def wmFlush (w : WebMoniter) (env : DeliveryEnv) : WebMoniter × List MetricData :=
  if w.initialized = false then (w, [])
  else
    match w.tracker with
    | none => (w, [])
    | some t =>
      let out := trackerFlush t env
      ({ w with tracker := some out.tracker }, out.handed)

/-- The network-plugin options the classification in
`FetchHandler.fetchProxy`'s `finally` block reads. -/
structure NetworkPluginOptions where
  enableDurationCheck : Bool := false
  durationThreshold : Option Nat := none
deriving Repr, DecidableEq

/-- JS template-literal rendering of a possibly-undefined number
(`${this.options.durationThreshold}` prints `undefined` when unset). -/
def renderJsNat (v : Option Nat) : String :=
  match v with
  | some n => toString n
  | none => "undefined"

/-- The `timeoutMessage` computed in `fetchProxy`'s `finally` block: empty
unless duration-checking is on and `duration > (durationThreshold || 2000)`. -/
def timeoutMessage (opts : NetworkPluginOptions) (duration : Nat) : String :=
  if opts.enableDurationCheck && decide (jsOrNat opts.durationThreshold 2000 < duration) then
    "请求耗时超过" ++ renderJsNat opts.durationThreshold ++ "ms"
  else ""

/-- The claim-relevant slice of `NetworkRequestInfo` built by `fetchProxy`. -/
structure NetworkRequestInfo where
  status : Nat
  duration : Nat
  success : Bool
  errorMessage : Option String
deriving Repr, DecidableEq

/-- The classification performed in `fetchProxy`'s `finally` block.
`responded` is whether the underlying fetch resolved with a `Response`;
`errText` is `error.stack || error.message` when the fetch threw (with `""`
standing for both being falsy). Mirrors, in order: `timeoutMessage`,
`statusCode = response?.status || 0`, `isSuccess`, the status/error-derived
`errorMessage`, the timeout override, and
`success: isSuccess ? !timeoutMessage : false`. -/
def classifyExchange (opts : NetworkPluginOptions) (responded : Bool) (status : Nat)
    (statusText : String) (errText : Option String) (duration : Nat) : NetworkRequestInfo :=
  let tmsg := timeoutMessage opts duration
  let statusCode := if responded then status else 0
  let isSuccess := responded && (decide (200 ≤ statusCode) && decide (statusCode < 400))
  let errMsg0 : String :=
    if isSuccess then ""
    else
      match errText with
      | some e => if e = "" then "请求失败" else e
      | none => if responded then toString statusCode ++ " " ++ statusText else ""
  let errMsg1 := if tmsg != "" then tmsg else errMsg0
  { status := statusCode
    duration := duration
    success := isSuccess && (tmsg == "")
    errorMessage := if errMsg1 = "" then none else some errMsg1 }

/-! Concrete fixtures for the scenario theorems. -/

/-- A metric carrying only a distinguishing name. -/
def namedMetric (s : String) : MetricData := { name := s }

/-- Configuration of the failure-priority scenario: `maxCache = 6`. -/
def scenarioCfg6 : MoniterConfig :=
  { project := "p", reportUrl := some "https://collect.example/r", maxCache := 6 }

/-- Reporter of the failure-priority scenario. -/
def scenarioReporter6 : ReporterState := { config := scenarioCfg6 }

/-- Tracker of the failure-priority scenario, its buffer holding the batch
`f1, f2, f3` about to fail. -/
def scenarioTracker6 : Tracker :=
  { config := scenarioCfg6, reporter := some scenarioReporter6
    metricCache := [namedMetric "f1", namedMetric "f2", namedMetric "f3"]
    sessionId := "sess" }

/-- Environment in which the blocking fetch throws (network error). -/
def envNetThrow : DeliveryEnv := { fetchOutcome := .netThrow }

/-- Environment in which every transport works. -/
def envDefault : DeliveryEnv := {}

/-- Environment in which `navigator.sendBeacon` exists but returns `false`. -/
def envBeaconFail : DeliveryEnv := { beaconAvailable := true, beaconOk := false }

/-- Reporter with a configured URL, used for the beacon-failure scenario. -/
def beaconFailReporter : ReporterState := { config := { project := "p", reportUrl := some "u" } }

/-- Tracker configured with `sampleRate = 0`. -/
def zeroRateTracker : Tracker :=
  { config := { project := "p", sampleRate := 0 }, sessionId := "s" }

/-- A source metric that already carries every enrichment field. -/
def sourceSetMetric : MetricData :=
  { name := "m", sessionId := some "src-sess", timestamp := some 111
    pageUrl := some "src-page", project := some "src-proj", appVersion := some "src-v" }

/-- Configuration of the enrichment scenario. -/
def enrichCfg : MoniterConfig := { project := "proj", appVersion := some "v1", reportUrl := some "u" }

/-- Tracker of the enrichment scenario, session id `tracker-sess`. -/
def enrichTracker : Tracker :=
  { config := enrichCfg, reporter := some { config := enrichCfg }, sessionId := "tracker-sess" }

/-- Configuration whose custom headers are `[("A", "old")]`. -/
def headersCfg : MoniterConfig :=
  { project := "p", reportUrl := some "u1", headers := [("A", "old")] }

/-- Tracker and attached reporter both starting from `headersCfg`. -/
def headersTracker : Tracker :=
  { config := headersCfg, reporter := some { config := headersCfg }, sessionId := "s" }

/-- A runtime update changing both the endpoint URL and the headers. -/
def headersPatch : ConfigPatch := { reportUrl := some "u2", headers := some [("A", "new")] }

/-- Tracker with one registered plugin, a reporter, and a buffered metric,
used for the destroy scenarios. -/
def destroyScenarioTracker : Tracker :=
  { config := { project := "p", reportUrl := some "u" }
    plugins := ["network-plugin"]
    reporter := some { config := { project := "p", reportUrl := some "u" } }
    metricCache := [namedMetric "old"]
    sessionId := "s" }

/-- Reporter with no `reportUrl` configured. -/
def noUrlReporter : ReporterState := { config := { project := "p" } }

/-- Tracker attached to `noUrlReporter` with two buffered metrics. -/
def noUrlTracker : Tracker :=
  { config := { project := "p" }, reporter := some noUrlReporter
    metricCache := [namedMetric "a", namedMetric "b"], sessionId := "s" }

/-! Helper lemmas shared by the claim theorems. -/

/-- A synthesized timeout message is never the empty string. -/
theorem timeout_prefix_ne_empty (a b : String) : ("请求耗时超过" ++ a ++ b) ≠ "" := by
  intro h
  have hl := congrArg String.length h
  simp [String.length_append] at hl
  exact (by decide : ¬ (("请求耗时超过" : String).length = 0)) hl.1.1


/-- Flushing never changes the registered plugins. -/
theorem trackerFlush_plugins (t : Tracker) (env : DeliveryEnv) :
    (trackerFlush t env).tracker.plugins = t.plugins := by
  unfold trackerFlush
  split
  · rfl
  · split
    · rfl
    · rfl

/-- A single non-immediate `send` below capacity only appends the enriched
metric to the buffer. -/
theorem trackerSend_one_buffers (t : Tracker) (m : MetricData) (rand : Rat) (now : Nat)
    (href : String) (env : DeliveryEnv)
    (hs : shouldSample t.config.sampleRate rand = true)
    (hroom : t.metricCache.length + 1 < effMaxCache t.config) :
    trackerSend t [m] false rand now href env =
      ⟨{ t with metricCache := t.metricCache ++ [enrichMetric t.sessionId t.config now href m] },
        [], [], false⟩ := by
  have hlt : ¬ (effMaxCache t.config ≤ t.metricCache.length + 1) := by omega
  unfold trackerSend
  simp [hs, hlt]

/-- Sequential non-immediate `send` calls that stay strictly below capacity
append the enriched metrics in order and trigger no flush. -/
theorem trackerSendAll_buffers (ms : List MetricData) (t : Tracker) (rand : Rat) (now : Nat)
    (href : String) (env : DeliveryEnv)
    (hs : shouldSample t.config.sampleRate rand = true)
    (hroom : t.metricCache.length + ms.length < effMaxCache t.config) :
    trackerSendAll t ms rand now href env =
      { t with metricCache := t.metricCache ++ ms.map (enrichMetric t.sessionId t.config now href) } := by
  induction ms generalizing t with
  | nil =>
    simp [trackerSendAll]
  | cons m rest ih =>
    have hroom1 : t.metricCache.length + 1 < effMaxCache t.config := by
      simp only [List.length_cons] at hroom
      omega
    have hroom2 : ({ t with metricCache :=
        t.metricCache ++ [enrichMetric t.sessionId t.config now href m] } : Tracker).metricCache.length
        + rest.length < effMaxCache t.config := by
      simp only [List.length_append, List.length_cons, List.length_nil]
      simp only [List.length_cons] at hroom
      omega
    calc trackerSendAll t (m :: rest) rand now href env
        = trackerSendAll
            { t with metricCache := t.metricCache ++ [enrichMetric t.sessionId t.config now href m] }
            rest rand now href env := by
          show trackerSendAll (trackerSend t [m] false rand now href env).tracker rest rand now href env = _
          rw [trackerSend_one_buffers t m rand now href env hs hroom1]
      _ = { t with metricCache :=
            t.metricCache ++ (m :: rest).map (enrichMetric t.sessionId t.config now href) } := by
          rw [ih { t with metricCache := t.metricCache ++ [enrichMetric t.sessionId t.config now href m] }
            hs hroom2]
          simp [List.append_assoc]

/-- C5: for every observed exchange, if duration-checking is enabled and the
duration exceeds the effective threshold, the classification record has
`success = false` regardless of HTTP status, and its error message states the
configured threshold, overriding any status-derived error message. -/
theorem C5_timeout_override (opts : NetworkPluginOptions) (th : Nat)
    (responded : Bool) (status : Nat) (statusText : String)
    (errText : Option String) (duration : Nat)
    (hon : opts.enableDurationCheck = true)
    (hth : opts.durationThreshold = some th)
    (hdur : jsOrNat opts.durationThreshold 2000 < duration) :
    (classifyExchange opts responded status statusText errText duration).success = false ∧
    (classifyExchange opts responded status statusText errText duration).errorMessage =
      some ("请求耗时超过" ++ toString th ++ "ms") := by
  have htm : timeoutMessage opts duration = "请求耗时超过" ++ toString th ++ "ms" := by
    simp [timeoutMessage, hon, hth, renderJsNat, hth ▸ hdur]
  have hne : ("请求耗时超过" ++ toString th ++ "ms") ≠ "" := timeout_prefix_ne_empty _ _
  unfold classifyExchange
  rw [htm]
  constructor
  · simp [hne]
  · simp [hne]

/-- C5 witness: duration 2500 over threshold 2000 with HTTP 200 yields a
failed classification whose message states the threshold. -/
theorem C5_witness :
    jsOrNat (({ enableDurationCheck := true, durationThreshold := some 2000 } :
        NetworkPluginOptions)).durationThreshold 2000 < 2500 ∧
    ((classifyExchange { enableDurationCheck := true, durationThreshold := some 2000 }
        true 200 "OK" none 2500).success = false ∧
     (classifyExchange { enableDurationCheck := true, durationThreshold := some 2000 }
        true 200 "OK" none 2500).errorMessage = some ("请求耗时超过" ++ toString 2000 ++ "ms")) :=
  ⟨by decide,
   C5_timeout_override { enableDurationCheck := true, durationThreshold := some 2000 }
     2000 true 200 "OK" none 2500 rfl rfl (by decide)⟩

/-- C8: destroying a tracker clears the plugin registry, so a second destroy
invokes no plugin teardown at all (and, being a total function of the model,
never throws). -/
theorem C8_destroy_idempotent (t : Tracker) (env env2 : DeliveryEnv) :
    (trackerDestroy t env).1.plugins = [] ∧
    (trackerDestroy (trackerDestroy t env).1 env2).2 = [] := by
  have h1 : (trackerDestroy t env).1.plugins = [] := by
    unfold trackerDestroy
    simp [trackerFlush_plugins]
  refine ⟨h1, ?_⟩
  have h2 : (trackerDestroy (trackerDestroy t env).1 env2).2 =
      (trackerDestroy t env).1.plugins := rfl
  rw [h2, h1]

/-- C10: an immediate send that actually starts (the in-flight flag is clear)
leaves the flag clear on every completion path of the blocking fetch, so the
next immediate send is not rejected by the mutual-exclusion guard. -/
theorem C10_isSending_cleared (r : ReporterState) (env env2 : DeliveryEnv) :
    ((sendImmediateR { r with isSending := false } env).reporter).isSending = false ∧
    (sendImmediateR ((sendImmediateR { r with isSending := false } env).reporter) env2).attempts =
      [Transport.xhrFetch] := by
  unfold sendImmediateR
  cases env.fetchOutcome <;> cases env2.fetchOutcome <;> simp

/-- C9: with no `reportUrl` configured, `Reporter.send` performs zero transport
attempts and its promise resolves (no rejection), so a flush through it drains
the buffer, triggers no requeue, and the batch of that flush is lost. -/
theorem C9_no_url_flush (t : Tracker) (r : ReporterState) (env : DeliveryEnv)
    (hrep : t.reporter = some r) (hne : t.metricCache ≠ [])
    (hd : r.destroyed = false) (hurl : jsTruthy r.config.reportUrl = false) :
    (trackerFlush t env).handed = t.metricCache ∧
    (trackerFlush t env).attempts = [] ∧
    (trackerFlush t env).rejected = false ∧
    (trackerFlush t env).tracker.metricCache = [] := by
  unfold trackerFlush
  rw [if_neg hne, hrep]
  unfold reporterSend
  simp [hd, hurl]

/-- C9 witness: a tracker holding two metrics, attached to a reporter with no
URL — the flush drains the buffer, attempts nothing, and does not reject. -/
theorem C9_witness :
    noUrlTracker.reporter = some noUrlReporter ∧
    ((trackerFlush noUrlTracker envDefault).handed = noUrlTracker.metricCache ∧
     (trackerFlush noUrlTracker envDefault).attempts = [] ∧
     (trackerFlush noUrlTracker envDefault).rejected = false ∧
     (trackerFlush noUrlTracker envDefault).tracker.metricCache = []) :=
  ⟨rfl, C9_no_url_flush noUrlTracker noUrlReporter envDefault rfl (by decide) rfl rfl⟩

/-- C2: evaluation of `Reporter.send` at the failing input — non-immediate
mode, `reportUrl` configured, `navigator.sendBeacon` available but returning
`false`. The code falls back directly to the image transport; the blocking
fetch transport is never attempted, contradicting both the claim and the
repository's own reporter test (which expects the fallback to go to fetch). -/
theorem C2_code_eval :
    (reporterSend beaconFailReporter [namedMetric "m"] false envBeaconFail).attempts =
      [Transport.beacon, Transport.image] ∧
    Transport.xhrFetch ∉
      (reporterSend beaconFailReporter [namedMetric "m"] false envBeaconFail).attempts := by
  decide

/-- C3: evaluation of instance-level sampling at the failing input
`sampleRate = 0`. In `Math.random() < (this.config.sampleRate || 1.0)` the
explicit `0` is falsy, so the rate behaves as `1.0`: every draw passes and the
metric is buffered — nothing is dropped, contradicting the claim that
`sampleRate = 0` makes every send a no-op. (The `sampleRate = 1` half of the
claim does hold: no draw below `1` is rejected.) -/
theorem C3_code_eval :
    shouldSample 0 0 = true ∧
    shouldSample 0 (mkRat 1 2) = true ∧
    shouldSample 0 (mkRat 99 100) = true ∧
    (trackerSend zeroRateTracker [namedMetric "m"] false (mkRat 1 2) 5 "page" envDefault).tracker.metricCache =
      [enrichMetric "s" zeroRateTracker.config 5 "page" (namedMetric "m")] ∧
    (trackerSend zeroRateTracker [namedMetric "m"] false (mkRat 1 2) 5 "page" envDefault).tracker.metricCache ≠ [] ∧
    shouldSample 1 (mkRat 99 100) = true := by
  decide

/-- C4 counterexample: a metric that already carries `sessionId`, `project`
and `appVersion` does not retain them — `Tracker.send` overwrites all three
with the tracker's session and configuration before handing the batch to the
transport layer. -/
theorem C4_counterexample :
    ((trackerSend enrichTracker [sourceSetMetric] true 0 999 "page" envDefault).handed.map
        fun m => m.sessionId) = [some "tracker-sess"] ∧
    sourceSetMetric.sessionId = some "src-sess" ∧
    (some "tracker-sess" : Option String) ≠ some "src-sess" ∧
    ((trackerSend enrichTracker [sourceSetMetric] true 0 999 "page" envDefault).handed.map
        fun m => m.project) = [some "proj"] ∧
    sourceSetMetric.project = some "src-proj" ∧
    ((trackerSend enrichTracker [sourceSetMetric] true 0 999 "page" envDefault).handed.map
        fun m => m.appVersion) = [some "v1"] ∧
    sourceSetMetric.appVersion = some "src-v" := by
  decide

/-- C4 (amended): `Tracker.send` hands `send`-plus-`flush` round-trips to the
transport layer as the enriched metrics, where enrichment preserves source-set
`timestamp` and `pageUrl` (when truthy) and defaults them otherwise, but
unconditionally overwrites `sessionId`, `project` and `appVersion` with the
tracker's session and configuration (`appVersion` stays absent when
unconfigured). -/
theorem C4_enrichment (cfg : MoniterConfig) (r : ReporterState) (s href : String)
    (m : MetricData) (rand : Rat) (now : Nat) (env : DeliveryEnv)
    (hs : shouldSample cfg.sampleRate rand = true) :
    (trackerSend { config := cfg, reporter := some r, metricCache := [], sessionId := s }
        [m] true rand now href env).handed = [enrichMetric s cfg now href m] ∧
    (enrichMetric s cfg now href m).sessionId = some s ∧
    (enrichMetric s cfg now href m).project = some cfg.project ∧
    (enrichMetric s cfg now href m).appVersion = cfg.appVersion ∧
    (enrichMetric s cfg now href m).timestamp = some (jsOrNat m.timestamp now) ∧
    (enrichMetric s cfg now href m).pageUrl = some (jsOrStr m.pageUrl href) ∧
    (enrichMetric s cfg now href m).name = m.name := by
  refine ⟨?_, rfl, rfl, rfl, rfl, rfl, rfl⟩
  unfold trackerSend trackerFlush
  simp [hs]

/-- C4 witness: the source-set metric round-trips as its enriched form. -/
theorem C4_witness :
    shouldSample enrichCfg.sampleRate 0 = true ∧
    ((trackerSend
        { config := enrichCfg, reporter := some { config := enrichCfg }, metricCache := [], sessionId := "tracker-sess" }
        [sourceSetMetric] true 0 999 "page" envDefault).handed =
      [enrichMetric "tracker-sess" enrichCfg 999 "page" sourceSetMetric] ∧
     (enrichMetric "tracker-sess" enrichCfg 999 "page" sourceSetMetric).sessionId = some "tracker-sess" ∧
     (enrichMetric "tracker-sess" enrichCfg 999 "page" sourceSetMetric).project = some enrichCfg.project ∧
     (enrichMetric "tracker-sess" enrichCfg 999 "page" sourceSetMetric).appVersion = enrichCfg.appVersion ∧
     (enrichMetric "tracker-sess" enrichCfg 999 "page" sourceSetMetric).timestamp =
       some (jsOrNat sourceSetMetric.timestamp 999) ∧
     (enrichMetric "tracker-sess" enrichCfg 999 "page" sourceSetMetric).pageUrl =
       some (jsOrStr sourceSetMetric.pageUrl "page") ∧
     (enrichMetric "tracker-sess" enrichCfg 999 "page" sourceSetMetric).name = sourceSetMetric.name) :=
  ⟨by decide,
   C4_enrichment enrichCfg { config := enrichCfg } "tracker-sess" "page" sourceSetMetric 0 999
     envDefault (by decide)⟩

/-- C6 counterexample: `Tracker.setConfig` with an update carrying both a new
`reportUrl` and new custom headers merges both into the tracker's own config,
but forwards only the `reportUrl` to the attached reporter — the reporter
keeps its old headers, so it does not use the new headers for later sends. -/
theorem C6_counterexample :
    (trackerSetConfig headersTracker headersPatch).config.headers = [("A", "new")] ∧
    ((trackerSetConfig headersTracker headersPatch).reporter.map fun r => r.config.headers) =
      some [("A", "old")] ∧
    ((trackerSetConfig headersTracker headersPatch).reporter.map fun r => r.config.reportUrl) =
      some (some "u2") ∧
    ([("A", "old")] : List (String × String)) ≠ [("A", "new")] := by
  decide

/-- C6 (amended): `Tracker.setConfig` merges the update into the tracker's
configuration and, when the update carries a non-empty `reportUrl` and a
reporter is attached, synchronously forwards exactly that `reportUrl`; the
reporter's custom headers are left unchanged (headers are not propagated). -/
theorem C6_setconfig_url_only (t : Tracker) (r : ReporterState) (p : ConfigPatch) (u : String)
    (hrep : t.reporter = some r) (hu : p.reportUrl = some u) (hne : u ≠ "") :
    (trackerSetConfig t p).config = mergeConfig t.config p ∧
    ((trackerSetConfig t p).reporter.map fun r2 => r2.config.reportUrl) = some (some u) ∧
    ((trackerSetConfig t p).reporter.map fun r2 => r2.config.headers) = some r.config.headers := by
  unfold trackerSetConfig
  simp only [hrep]
  have htr : jsTruthy p.reportUrl = true := by
    rw [hu]
    simpa [jsTruthy] using hne
  rw [htr]
  simp [reporterSetConfig, mergeConfig, patchOpt, hu]

/-- C6 witness: concrete run of the amended propagation statement. -/
theorem C6_witness :
    headersTracker.reporter = some { config := headersCfg } ∧
    ((trackerSetConfig headersTracker headersPatch).config = mergeConfig headersTracker.config headersPatch ∧
     ((trackerSetConfig headersTracker headersPatch).reporter.map fun r2 => r2.config.reportUrl) =
       some (some "u2") ∧
     ((trackerSetConfig headersTracker headersPatch).reporter.map fun r2 => r2.config.headers) =
       some ({ config := headersCfg } : ReporterState).config.headers) :=
  ⟨rfl, C6_setconfig_url_only headersTracker { config := headersCfg } headersPatch "u2" rfl rfl
    (by decide)⟩

/-- C7 counterexample: the bare `Tracker` has no destroyed flag — after
`Tracker.destroy()`, a further `send` still enriches and buffers the metric
(the buffer changes from empty to one element), so the operation is not a
no-op on the buffer and is not rejected. -/
theorem C7_counterexample :
    ((trackerSend (trackerDestroy destroyScenarioTracker envDefault).1
        [namedMetric "post"] false 0 7 "pg" envDefault).tracker.metricCache.map
        fun m => m.name) = ["post"] ∧
    (trackerDestroy destroyScenarioTracker envDefault).1.metricCache = [] ∧
    (["post"] : List String) ≠ [] := by
  decide

/-- C7 (amended): the post-destroy guard lives in the `WebMoniter` facade, not
in the `Tracker`: after `WebMoniter.destroy()`, every further `send` or
`flush` through the facade leaves the state unchanged and hands nothing to
the delivery unit (a logged no-op that never throws). -/
theorem C7_facade_guard (w : WebMoniter) (env env2 : DeliveryEnv)
    (ms : List MetricData) (reportNow : Bool) (rand : Rat) (now : Nat) (href : String) :
    wmSend (wmDestroy w env) ms reportNow rand now href env2 = (wmDestroy w env, []) ∧
    wmFlush (wmDestroy w env) env2 = (wmDestroy w env, []) := by
  rcases w with ⟨init, tr⟩
  cases init <;> simp [wmDestroy, wmSend, wmFlush]

/-- C1 counterexample: failed batch `f1 f2 f3`, five metrics `n1..n5` arriving
before the failure handler runs, `maxCache = 6`. The handler keeps the three
OLDEST new metrics (`n1 n2 n3`) and drops the two most recent (`n4 n5`),
because `[...failed, ...cache].slice(0, maxCache)` truncates from the back —
not the three most recent as the claim states. -/
theorem C1_counterexample :
    ((trackerOnSendFail
        (trackerSendAll (trackerFlush scenarioTracker6 envNetThrow).tracker
          [namedMetric "n1", namedMetric "n2", namedMetric "n3", namedMetric "n4", namedMetric "n5"]
          0 100 "page" envNetThrow)
        (trackerFlush scenarioTracker6 envNetThrow).handed).metricCache.map
        fun m => m.name) = ["f1", "f2", "f3", "n1", "n2", "n3"] ∧
    ¬ (((trackerOnSendFail
        (trackerSendAll (trackerFlush scenarioTracker6 envNetThrow).tracker
          [namedMetric "n1", namedMetric "n2", namedMetric "n3", namedMetric "n4", namedMetric "n5"]
          0 100 "page" envNetThrow)
        (trackerFlush scenarioTracker6 envNetThrow).handed).metricCache.map
        fun m => m.name) = ["f1", "f2", "f3", "n3", "n4", "n5"]) := by
  decide

/-- C1 (amended): after a failed flush, the failure handler sets the buffer to
the failed batch prepended to the metrics that arrived since the flush,
truncated to the effective max capacity — retried metrics take precedence and
the overflow is dropped from the NEWEST-appended-since-failure end. -/
theorem C1_failure_recombination (cfg : MoniterConfig) (r : ReporterState) (s href : String)
    (failed fresh : List MetricData) (rand : Rat) (now : Nat) (env : DeliveryEnv)
    (hd : r.destroyed = false) (hurl : jsTruthy r.config.reportUrl = true)
    (hsend : r.isSending = false) (hfail : env.fetchOutcome ≠ FetchOutcome.ok2xx)
    (hne : failed ≠ [])
    (hs : shouldSample cfg.sampleRate rand = true)
    (hroom : fresh.length < effMaxCache cfg) :
    (trackerFlush { config := cfg, reporter := some r, metricCache := failed, sessionId := s } env).rejected = true ∧
    (trackerFlush { config := cfg, reporter := some r, metricCache := failed, sessionId := s } env).handed = failed ∧
    (trackerOnSendFail
        (trackerSendAll
          (trackerFlush { config := cfg, reporter := some r, metricCache := failed, sessionId := s } env).tracker
          fresh rand now href env)
        (trackerFlush { config := cfg, reporter := some r, metricCache := failed, sessionId := s } env).handed).metricCache =
      (failed ++ fresh.map (enrichMetric s cfg now href)).take (effMaxCache cfg) := by
  have hrej : reporterSend r failed true env =
      ⟨{ r with isSending := false }, [Transport.xhrFetch], true⟩ := by
    cases henv : env.fetchOutcome with
    | ok2xx => exact absurd henv hfail
    | nonOk =>
      unfold reporterSend sendImmediateR
      simp [hd, hurl, hne, hsend, henv]
    | netThrow =>
      unfold reporterSend sendImmediateR
      simp [hd, hurl, hne, hsend, henv]
  have hfl : trackerFlush { config := cfg, reporter := some r, metricCache := failed, sessionId := s } env =
      ⟨{ config := cfg, reporter := some { r with isSending := false }, metricCache := [], sessionId := s },
        failed, [Transport.xhrFetch], true⟩ := by
    unfold trackerFlush
    simp [hne, hrej]
  rw [hfl]
  refine ⟨rfl, rfl, ?_⟩
  have hroom0 : ({ config := cfg, reporter := some { r with isSending := false }, metricCache := [], sessionId := s } : Tracker).metricCache.length
      + fresh.length < effMaxCache cfg := by
    simpa using hroom
  rw [trackerSendAll_buffers fresh
    { config := cfg, reporter := some { r with isSending := false }, metricCache := [], sessionId := s }
    rand now href env hs hroom0]
  simp [trackerOnSendFail]

/-- C1 witness: the concrete 3-failed / 5-new / capacity-6 scenario, run
through the amended recombination statement. -/
theorem C1_witness :
    ([namedMetric "n1", namedMetric "n2", namedMetric "n3", namedMetric "n4", namedMetric "n5"].length
        < effMaxCache scenarioCfg6) ∧
    ((trackerFlush scenarioTracker6 envNetThrow).rejected = true ∧
     (trackerFlush scenarioTracker6 envNetThrow).handed =
       [namedMetric "f1", namedMetric "f2", namedMetric "f3"] ∧
     (trackerOnSendFail
        (trackerSendAll (trackerFlush scenarioTracker6 envNetThrow).tracker
          [namedMetric "n1", namedMetric "n2", namedMetric "n3", namedMetric "n4", namedMetric "n5"]
          0 100 "page" envNetThrow)
        (trackerFlush scenarioTracker6 envNetThrow).handed).metricCache =
      ([namedMetric "f1", namedMetric "f2", namedMetric "f3"] ++
        [namedMetric "n1", namedMetric "n2", namedMetric "n3", namedMetric "n4",
          namedMetric "n5"].map (enrichMetric "sess" scenarioCfg6 100 "page")).take
        (effMaxCache scenarioCfg6)) :=
  ⟨by decide,
   C1_failure_recombination scenarioCfg6 scenarioReporter6 "sess" "page"
     [namedMetric "f1", namedMetric "f2", namedMetric "f3"]
     [namedMetric "n1", namedMetric "n2", namedMetric "n3", namedMetric "n4", namedMetric "n5"]
     0 100 envNetThrow rfl (by decide) rfl (by decide) (by decide) (by decide) (by decide)⟩
